import Mathlib

/-!
Shallow embedding of the DesignMyNight booking provider client
(src/booking_providers/design_my_night.py) and the domain model
(src/models/availability_models.py, src/models/booking_models.py),
together with theorems settling the specification claims about it.

Python dictionaries are modelled as association lists over string keys,
Python JSON scalars as the inductive type PyVal, and network effects as
explicit outcome parameters: each function that performs HTTP requests
takes the would-be result of every request as an argument, so that the
control flow of the source is reproduced exactly while staying pure.
-/

namespace BookablApi

/-- Scalar values appearing in the Python dictionaries handled by the client. -/
inductive PyVal
  | vStr (s : String)
  | vInt (n : Int)
  | vBool (b : Bool)
  | vNone
deriving DecidableEq

/-- A Python dict with string keys, as an association list in insertion order. -/
abbrev Dict := List (String × PyVal)

/-- Assignment d[k] = v of a Python dict: replaces the value of an existing
key in place, otherwise appends the new key at the end. -/
def dictSet {β : Type} (d : List (String × β)) (k : String) (v : β) : List (String × β) :=
  match d with
  | [] => [(k, v)]
  | (k1, v1) :: rest => if k1 = k then (k, v) :: rest else (k1, v1) :: dictSet rest k v

/-- The method d.update(u) of a Python dict: assigns every entry of u into d. -/
def dictUpdate (d u : Dict) : Dict :=
  u.foldl (fun acc kv => dictSet acc kv.1 kv.2) d

/-- Key membership test, as in the Python expression k in d.keys(). -/
def containsKey (d : Dict) (k : String) : Bool :=
  d.any (fun kv => kv.1 == k)

/-- Association-list lookup, modelling d[k] and d.get(k) on Python dicts. -/
def lookupAssoc {β : Type} (l : List (String × β)) (k : String) : Option β :=
  (l.find? (fun kv => kv.1 == k)).map (fun kv => kv.2)

/-- Lexicographic comparison of character lists by code point; this is the
order Python uses to compare strings, and the order Lean gives String. -/
def charListLe : List Char → List Char → Bool
  | [], _ => true
  | _ :: _, [] => false
  | c1 :: r1, c2 :: r2 => if c1 = c2 then charListLe r1 r2 else decide (c1 < c2)

/-- Lexicographic string comparison by code point, as Python compares str. -/
def pyStrLe (a b : String) : Bool := charListLe a.data b.data

/-- The enum BookingProvider of availability_models.py. -/
inductive BookingProvider
  | DESIGN_MY_NIGHT
  | OPEN_TABLE
  | RESY
  | SEVEN_ROOMS
  | RES_DIARY
  | THE_FORK
  | QUANDOO
  | TOCK
  | MOCK
deriving DecidableEq

/-- The enum BookingFormAction of availability_models.py. -/
inductive BookingFormAction
  | WEBSITE
  | BOOKING_INJECTION
  | REQUEST_BOOKING
deriving DecidableEq

/-- The enum BookingStatus of booking_models.py. -/
inductive BookingStatus
  | COMPLETED
  | NO_SHOW
  | CANCELLED
  | REQUESTED
  | PENDING_PAYMENT
  | UPCOMING
deriving DecidableEq

/-- A Python datetime value, abstracted to the two renderings the client
reads from it: the calendar date as strftime with the year-month-day format
produces it, and the clock time in hour-minute form. -/
structure PyDateTime where
  ymd : String
  hm : String
deriving DecidableEq

/-- The NamedTuple BookingDetails of design_my_night.py. -/
structure BookingDetails where
  link : String
  deposit_required : Bool
  details : Dict
deriving DecidableEq

/-- The NamedTuple TimeSlot of design_my_night.py. -/
structure TimeSlot where
  time : String
  action : String
deriving DecidableEq

/-- The NamedTuple BookingType of design_my_night.py. -/
structure BookingType where
  id : String
  name : String
deriving DecidableEq

/-- The model BookingTimeSlotMetaData of availability_models.py, restricted
to the designMyNight bag; the bags of the seven other providers are never
read or written by this client and are omitted. -/
structure BookingTimeSlotMetaData where
  designMyNight : Option Dict := none
deriving DecidableEq

/-- The model RequiredDeposit of availability_models.py. -/
structure RequiredDeposit where
  amountUnits : Int
  amountPer : String := "guest"
  currency : String
  terms : Option String := none
deriving DecidableEq

/-- The model AvailabilitySlot of availability_models.py. The model
declares no covers field (the covers keyword the provider passes to the
constructor is not part of the model and is discarded by pydantic), and
requiredDeposit is declared RequiredDeposit or None. -/
structure AvailabilitySlot where
  provider : BookingProvider
  timeSlot : String
  date : PyDateTime
  url : String
  maxDuration : Option Int := none
  minDuration : Option Int := none
  tag : Option String := none
  metaData : Option BookingTimeSlotMetaData := none
  bookingFormAction : BookingFormAction
  requiredDeposit : Option RequiredDeposit := none
  dobRequired : Bool := false
deriving DecidableEq

/-- The model BookingUser of booking_models.py. -/
structure BookingUser where
  id : String
  isOwner : Bool
  email : Option String := none
  phone : Option String := none
  firstName : Option String := none
  lastName : Option String := none
deriving DecidableEq

/-- The model Venue of booking_models.py. -/
structure Venue where
  id : String
  name : String
  town : Option String := none
deriving DecidableEq

/-- The enum Currency of booking_models.py. -/
inductive Currency
  | USD
  | GBP
  | EUR
deriving DecidableEq

/-- The model Deposit of booking_models.py. -/
structure Deposit where
  amountUnits : Int
  amountPer : String := "guest"
  currency : Currency
  terms : Option String := none
deriving DecidableEq

/-- The model Partner of booking_models.py. -/
structure Partner where
  id : String
  name : String
  logoUrl : Option String := none
deriving DecidableEq

/-- The model Booking of booking_models.py; the partner field is declared
required with no default, deposit is optional. bookedAt keeps the raw
created_date string of the response. -/
structure Booking where
  id : String
  dateTime : PyDateTime
  covers : Int
  bookedAt : String
  status : BookingStatus
  tag : Option String := none
  originalEmail : String
  venue : Venue
  users : List BookingUser
  partner : Partner
  deposit : Option Deposit := none
deriving DecidableEq

/-- Exceptions crossing the boundaries of the client: a timeout of asyncio,
a transport or status error of aiohttp (ClientError, of which the non-2xx
ClientResponseError raised by raise_for_status is a subclass), the
RequestFailedError the client itself raises, the pydantic ValidationError a
model constructor raises (carrying the offending field), and the
BookingRejectedError carrying the provider status. -/
inductive PyErr
  | timeoutErr
  | clientErr (msg : String)
  | requestFailedErr (msg : String)
  | validationError (field : String)
  | bookingRejected (status : String)
deriving DecidableEq

/-- Decides whether an exception is the RequestFailedError of the client. -/
def isRequestFailed : PyErr → Bool
  | .requestFailedErr _ => true
  | _ => false

/-- Outcome of one attempt inside _make_request_with_retry: a 2xx response
with parsed body, an asyncio timeout, or an aiohttp ClientError (covering
transport failures and, via raise_for_status, every non-2xx status). -/
inductive AttemptResult (α : Type)
  | ok (data : α)
  | timeout
  | clientError (msg : String)
deriving DecidableEq

/-- Decides whether an attempt returned data. -/
def attemptOk {α : Type} : AttemptResult α → Bool
  | .ok _ => true
  | _ => false

/-- The constant MAX_RETRIES of DesignMyNightBookingAPI. -/
def MAX_RETRIES : Nat := 1

/-- The method _make_request_with_retry, as a function of the outcomes of
its successive attempts (the list has one entry per executed attempt, so a
full run has MAX_RETRIES entries). A successful attempt returns its data;
a timeout on the last attempt is re-raised as is; a ClientError on the
last attempt is wrapped into RequestFailedError; a failure on an earlier
attempt sleeps and retries; the unreachable fall-through after the loop
raises RequestFailedError. -/
def _make_request_with_retry {α : Type} : List (AttemptResult α) → Except PyErr α
  | [] => .error (.requestFailedErr "This should never be reached")
  | a :: rest =>
    match a with
    | .ok d => .ok d
    | .timeout =>
      if rest.isEmpty then .error .timeoutErr else _make_request_with_retry rest
    | .clientError m =>
      if rest.isEmpty then .error (.requestFailedErr ("API request failed: " ++ m))
      else _make_request_with_retry rest

/-- A raw time suggestion as read from the suggestedValues array of the
availability payload: the valid flag and time value may be absent, the
action string is read unconditionally. -/
structure RawTimeSuggestion where
  valid : Option Bool := none
  time : Option String := none
  action : String
deriving DecidableEq

/-- Python truthiness of slot.get with the valid key: absent and false are
both falsy. -/
def truthyFlag : Option Bool → Bool
  | some b => b
  | none => false

/-- Python truthiness of slot.get with the time key: absent and the empty
string are both falsy. -/
def truthyStr : Option String → Bool
  | some t => !(t == "")
  | none => false

/-- The filter condition of __get_time_slots: slot.get of valid is truthy,
slot.get of time is truthy, and the action differs from reject. -/
def suggestionKept (s : RawTimeSuggestion) : Bool :=
  truthyFlag s.valid && truthyStr s.time && !(s.action == "reject")

/-- The method __get_time_slots applied to the suggestedValues list already
extracted from the JSON payload (the chained get calls with empty-dict and
empty-list defaults): keeps the suggestions passing the filter and builds a
TimeSlot from the time and action of each. -/
def __get_time_slots (suggested : List RawTimeSuggestion) : List TimeSlot :=
  (suggested.filter suggestionKept).map (fun s => ⟨s.time.getD "", s.action⟩)

/-- Result of one of the tasks handed to asyncio.gather by
get_availability_per_date with return_exceptions set: the value of a
__get_time_slots task, the value of a __get_booking_details task, or the
exception the task raised. -/
inductive TaskResult
  | slots (l : List TimeSlot)
  | details (d : BookingDetails)
  | exc (e : PyErr)
deriving DecidableEq

instance : Inhabited TaskResult := ⟨.exc .timeoutErr⟩

/-- The isinstance check against Exception in the aggregation loop. -/
def isExceptionResult : TaskResult → Bool
  | .exc _ => true
  | _ => false

/-- The isinstance check against BookingDetails in the aggregation loop. -/
def isBookingDetailsResult : TaskResult → Bool
  | .details _ => true
  | _ => false

/-- The guard time_slots if isinstance(time_slots, list) else an empty
list, used when iterating the first element of a result pair. -/
def asTimeSlotList : TaskResult → List TimeSlot
  | .slots l => l
  | _ => []

/-- Wraps the outcome of a __get_time_slots task the way asyncio.gather
with return_exceptions surfaces it. -/
def toTimeSlotsTask : Except PyErr (List TimeSlot) → TaskResult
  | .ok l => .slots l
  | .error e => .exc e

/-- Wraps the outcome of a __get_booking_details task the way
asyncio.gather with return_exceptions surfaces it. -/
def toBookingDetailsTask : Except PyErr BookingDetails → TaskResult
  | .ok d => .details d
  | .error e => .exc e

/-- The model of asyncio.gather with return_exceptions: the tasks argument
lists the result each submitted task will produce, in submission order, and
the order argument lists the indices of the tasks in the order in which
they complete. Each completion stores its result under its task index, and
the final list is read back in submission order, so it does not depend on
the completion order once every task has completed. -/
def gatherResults {α : Type} [Inhabited α] (tasks : List α) (order : List Nat) : List α :=
  let completions := order.map (fun i => (i, tasks.getD i default))
  (List.range tasks.length).map
    (fun i => ((completions.find? (fun c => c.1 == i)).map (fun c => c.2)).getD default)

/-- A Python value passed to the requiredDeposit parameter of the
AvailabilitySlot constructor: the provider passes a raw bool, while the
model accepts a RequiredDeposit or None. -/
inductive PyDepositVal
  | asBool (b : Bool)
  | asModel (r : RequiredDeposit)
  | asNone
deriving DecidableEq

/-- Pydantic validation of a value against the declared field type
RequiredDeposit or None: None and RequiredDeposit values pass, any bool is
neither and raises ValidationError for the requiredDeposit field. -/
def validateRequiredDeposit : PyDepositVal → Except PyErr (Option RequiredDeposit)
  | .asNone => .ok none
  | .asModel r => .ok (some r)
  | .asBool _ => .error (.validationError "requiredDeposit")

/-- The keyword arguments _create_availability_slot passes to the
AvailabilitySlot constructor, exactly as written at the call site: covers
is passed although the model declares no such field, and requiredDeposit
receives the raw deposit flag. -/
structure AvailabilitySlotArgs where
  provider : BookingProvider
  timeSlot : String
  date : PyDateTime
  covers : Int
  url : String
  maxDuration : Option Int
  minDuration : Option Int
  tag : Option String
  metaData : Option BookingTimeSlotMetaData
  bookingFormAction : BookingFormAction
  requiredDeposit : PyDepositVal
  dobRequired : Bool
deriving DecidableEq

/-- Pydantic construction of an AvailabilitySlot from the keyword
arguments: the undeclared covers keyword is discarded, and the
requiredDeposit value must validate against RequiredDeposit or None. -/
def validateAvailabilitySlot (args : AvailabilitySlotArgs) : Except PyErr AvailabilitySlot :=
  match validateRequiredDeposit args.requiredDeposit with
  | .error e => .error e
  | .ok dep =>
    .ok { provider := args.provider
          timeSlot := args.timeSlot
          date := args.date
          url := args.url
          maxDuration := args.maxDuration
          minDuration := args.minDuration
          tag := args.tag
          metaData := args.metaData
          bookingFormAction := args.bookingFormAction
          requiredDeposit := dep
          dobRequired := args.dobRequired }

/-- The keyword arguments built by _create_availability_slot of
DesignMyNightBookingAPI. -/
def _create_availability_slot_args (slot : TimeSlot) (booking_details : BookingDetails)
    (date : PyDateTime) (covers : Int) (booking_type : BookingType) : AvailabilitySlotArgs :=
  { provider := .DESIGN_MY_NIGHT
    timeSlot := slot.time
    date := date
    covers := covers
    url := booking_details.link
    maxDuration := some 90
    minDuration := some 45
    tag := some booking_type.name
    metaData := some { designMyNight := some booking_details.details }
    bookingFormAction :=
      if booking_details.deposit_required
          || (slot.action == "enquire" || slot.action == "may_enquire") then
        .WEBSITE
      else
        .BOOKING_INJECTION
    requiredDeposit := .asBool booking_details.deposit_required
    dobRequired := false }

/-- The method _create_availability_slot of DesignMyNightBookingAPI: builds
the keyword arguments and calls the pydantic AvailabilitySlot constructor,
which validates them and can raise ValidationError. -/
def _create_availability_slot (slot : TimeSlot) (booking_details : BookingDetails)
    (date : PyDateTime) (covers : Int) (booking_type : BookingType) :
    Except PyErr AvailabilitySlot :=
  validateAvailabilitySlot (_create_availability_slot_args slot booking_details date covers
    booking_type)

/-- Left-to-right evaluation of a generator of fallible constructions, as
consumed by all_slots.extend: the first raising construction propagates its
exception and later elements are not evaluated. -/
def mapExcept {ε α β : Type} (f : α → Except ε β) : List α → Except ε (List β)
  | [] => .ok []
  | a :: rest =>
    match f a with
    | .error e => .error e
    | .ok b =>
      match mapExcept f rest with
      | .error e => .error e
      | .ok bs => .ok (b :: bs)

/-- One iteration of the aggregation loop of get_availability_per_date for
a booking type paired with its (time slots, booking details) results: the
pair is skipped when the first result is an exception or the second is not
a BookingDetails; otherwise one AvailabilitySlot per TimeSlot is
constructed, and a ValidationError raised by the constructor propagates. -/
def slotsForType (date : PyDateTime) (covers : Int)
    (entry : BookingType × TaskResult × TaskResult) : Except PyErr (List AvailabilitySlot) :=
  if isExceptionResult entry.2.1 then .ok []
  else
    match entry.2.2 with
    | .details d =>
      mapExcept (fun s => _create_availability_slot s d date covers entry.1)
        (asTimeSlotList entry.2.1)
    | _ => .ok []

/-- Comparison key of the final sort: the timeSlot string, compared the
way Python compares strings. -/
def slotTimeLe (a b : AvailabilitySlot) : Prop := pyStrLe a.timeSlot b.timeSlot = true

instance : DecidableRel slotTimeLe :=
  fun a b => inferInstanceAs (Decidable (pyStrLe a.timeSlot b.timeSlot = true))

/-- The call sorted with the timeSlot key: Python sorted is a stable
comparison sort, modelled by stable insertion sort on the same order. -/
def pySortedByTimeSlot (l : List AvailabilitySlot) : List AvailabilitySlot :=
  List.insertionSort slotTimeLe l

/-- The aggregation loop of get_availability_per_date over the booking
types zipped with their result pairs: each iteration either skips its pair
or extends the accumulated slots, and an exception raised by a slot
construction propagates immediately, abandoning the remaining types. -/
def collectSlots (date : PyDateTime) (covers : Int) :
    List (BookingType × TaskResult × TaskResult) → Except PyErr (List AvailabilitySlot)
  | [] => .ok []
  | e :: rest =>
    match slotsForType date covers e with
    | .error err => .error err
    | .ok l =>
      match collectSlots date covers rest with
      | .error err => .error err
      | .ok ls => .ok (l ++ ls)

/-- The joining half of get_availability_per_date: runs the aggregation
loop and, when no construction raised, returns the slots sorted by
timeSlot. -/
def aggregateSlots (entries : List (BookingType × TaskResult × TaskResult))
    (date : PyDateTime) (covers : Int) : Except PyErr (List AvailabilitySlot) :=
  match collectSlots date covers entries with
  | .error e => .error e
  | .ok all_slots => .ok (pySortedByTimeSlot all_slots)

/-- The task list built by get_availability_per_date: for every booking
type, its __get_time_slots task directly followed by its
__get_booking_details task. -/
def availabilityTasks (types : List BookingType)
    (tsOutcome : BookingType → Except PyErr (List TimeSlot))
    (bdOutcome : BookingType → Except PyErr BookingDetails) : List TaskResult :=
  (types.map (fun bt => [toTimeSlotsTask (tsOutcome bt), toBookingDetailsTask (bdOutcome bt)])).flatten

/-- Regrouping of the flat gather results into consecutive pairs, as the
aggregation loop reads results at indices 2k and 2k+1. -/
def pairUp {α : Type} : List α → List (α × α)
  | a :: b :: rest => (a, b) :: pairUp rest
  | _ => []

/-- The per-type entries of the aggregation as they stand before any
scheduling, obtained by pairing every booking type with the outcomes of
its two sub-requests. -/
def availabilityEntries (types : List BookingType)
    (tsOutcome : BookingType → Except PyErr (List TimeSlot))
    (bdOutcome : BookingType → Except PyErr BookingDetails) :
    List (BookingType × TaskResult × TaskResult) :=
  types.map (fun bt => (bt, toTimeSlotsTask (tsOutcome bt), toBookingDetailsTask (bdOutcome bt)))

/-- The method get_availability_per_date as a function of the outcome of
booking-type resolution, the outcomes of the per-type sub-requests, and the
completion order of the gathered tasks. A failure of the booking-type
resolution propagates; otherwise all sub-request tasks are gathered, the
results are consumed in pairs zipped against the booking types, failed
pairs are skipped, and the joined slots are returned sorted by timeSlot —
unless a slot construction raises, which propagates out of the call. -/
def get_availability_per_date (typesResult : Except PyErr (List BookingType))
    (tsOutcome : BookingType → Except PyErr (List TimeSlot))
    (bdOutcome : BookingType → Except PyErr BookingDetails)
    (order : List Nat) (date : PyDateTime) (covers : Int) :
    Except PyErr (List AvailabilitySlot) :=
  match typesResult with
  | .error e => .error e
  | .ok types =>
    aggregateSlots
      (types.zip (pairUp (gatherResults (availabilityTasks types tsOutcome bdOutcome) order)))
      date covers

/-- The constant REQUIRED_BOOKING_FIELDS of DesignMyNightBookingAPI. -/
def REQUIRED_BOOKING_FIELDS : Finset String :=
  {"venue_id", "source", "type", "first_name", "last_name", "email", "num_people", "date", "time"}

/-- The set difference REQUIRED_BOOKING_FIELDS minus params.keys() computed
by create_booking. -/
def missingFields (params : Dict) : Finset String :=
  REQUIRED_BOOKING_FIELDS.filter (fun f => containsKey params f = false)

/-- Conversion of an optional user string to the value stored in the
request parameters (Python passes None through unchanged). -/
def optStrVal : Option String → PyVal
  | some s => .vStr s
  | none => .vNone

/-- The dictionary literal passed to params.update by create_booking. -/
def overlayParams (venue_id : String) (user : BookingUser)
    (availability_slot : AvailabilitySlot) (covers : Int) : Dict :=
  [("venue_id", .vStr venue_id),
   ("date", .vStr availability_slot.date.ymd),
   ("time", .vStr availability_slot.timeSlot),
   ("num_people", .vInt covers),
   ("source", .vStr "partner"),
   ("first_name", optStrVal user.firstName),
   ("last_name", optStrVal user.lastName),
   ("email", optStrVal user.email),
   ("phone", optStrVal user.phone)]

/-- The merged parameter dict of create_booking: the designMyNight bag of
the slot metadata (or a fresh empty dict when the bag is None or empty)
updated with the overlay dictionary. -/
def mergedParams (venue_id : String) (user : BookingUser)
    (availability_slot : AvailabilitySlot) (covers : Int)
    (md : BookingTimeSlotMetaData) : Dict :=
  dictUpdate (md.designMyNight.getD []) (overlayParams venue_id user availability_slot covers)

/-- Where the local part of create_booking ends: an AttributeError when the
slot has no metaData, a BookingValidationError naming the missing required
fields, or the POST of the merged parameters to the bookings endpoint. -/
inductive CreateStep
  | attrError
  | validationError (missing : Finset String)
  | request (params : Dict)
deriving DecidableEq

/-- The local part of create_booking, up to the network call: reads the
designMyNight bag of the slot metadata (raising AttributeError when the
metadata is None), overlays the venue, date, time, covers, source and user
contact fields, validates the required fields, and reaches the POST when
none is missing. The second component is the metaData value of the input
slot after the call: params aliases the bag whenever the bag is a
non-empty dict, so params.update writes the overlay into the slot. -/
def create_booking (venue_id : String) (user : BookingUser)
    (availability_slot : AvailabilitySlot) (covers : Int) :
    CreateStep × Option BookingTimeSlotMetaData :=
  match availability_slot.metaData with
  | none => (.attrError, none)
  | some md =>
    let merged := mergedParams venue_id user availability_slot covers md
    let step :=
      if missingFields merged = ∅ then CreateStep.request merged
      else CreateStep.validationError (missingFields merged)
    let mdAfter : BookingTimeSlotMetaData :=
      { designMyNight :=
          match md.designMyNight with
          | some d => if d.isEmpty then some d else some merged
          | none => none }
    (step, some mdAfter)

/-- The nested type object of the booking in a creation response. -/
structure DMNBookingTypeField where
  name : String
deriving DecidableEq

/-- The venue object of the payload of a creation response. -/
structure DMNVenuePayload where
  id : String
  title : String
deriving DecidableEq

/-- The booking object of the payload of a creation response, with the
fields _create_booking_from_response reads. -/
structure DMNBookingPayload where
  id : String
  date : String
  time : String
  num_people : Int
  created_date : String
  type : DMNBookingTypeField
  email : String
deriving DecidableEq

/-- The payload object of a creation response (the code reads the payload
key of the response body and works on it throughout). -/
structure DMNResponsePayload where
  bookingStatus : String
  booking : DMNBookingPayload
  venue : DMNVenuePayload
deriving DecidableEq

/-- The call datetime.fromisoformat on an ISO datetime string followed by
the date method: keeps the leading year-month-day part. -/
def pyDateFromIso (s : String) : String := s.take 10

/-- The call datetime.strptime with the hour-minute format followed by the
time method, on a well-formed hour-minute string. -/
def pyStrptimeTimeHM (t : String) : String := t

/-- The call datetime.combine joining a date and a time into one instant. -/
def pyDatetimeCombine (d t : String) : PyDateTime := ⟨d, t⟩

/-- The keyword arguments of a Booking constructor call. A field whose
keyword is not passed at the call site is recorded as none here; for
partner the model declares no default, for deposit the model defaults to
None. -/
structure BookingCtorArgs where
  id : String
  dateTime : PyDateTime
  covers : Int
  bookedAt : String
  status : BookingStatus
  tag : Option String
  originalEmail : String
  venue : Venue
  users : List BookingUser
  partner : Option Partner := none
  deposit : Option Deposit := none
deriving DecidableEq

/-- Pydantic construction of a Booking from keyword arguments: the partner
field is required with no default, so a call that does not supply it raises
ValidationError for the partner field; deposit falls back to its None
default. -/
def validateBooking (args : BookingCtorArgs) : Except PyErr Booking :=
  match args.partner with
  | none => .error (.validationError "partner")
  | some p =>
    .ok { id := args.id
          dateTime := args.dateTime
          covers := args.covers
          bookedAt := args.bookedAt
          status := args.status
          tag := args.tag
          originalEmail := args.originalEmail
          venue := args.venue
          users := args.users
          partner := p
          deposit := args.deposit }

/-- The keyword arguments _create_booking_from_response passes to the
Booking constructor, exactly as written at the call site: the partner and
deposit keywords are not among them. -/
def _create_booking_args (payload : DMNResponsePayload) (user : BookingUser) :
    BookingCtorArgs :=
  { id := payload.booking.id
    dateTime :=
      pyDatetimeCombine (pyDateFromIso payload.booking.date)
        (pyStrptimeTimeHM payload.booking.time)
    covers := payload.booking.num_people
    bookedAt := payload.booking.created_date
    status :=
      if payload.bookingStatus == "confirmed" then .COMPLETED else .REQUESTED
    tag := some payload.booking.type.name
    originalEmail := payload.booking.email
    venue := { id := payload.venue.id, name := payload.venue.title, town := some "London" }
    users := [user] }

/-- The method _create_booking_from_response of DesignMyNightBookingAPI,
applied to the payload object of the response: a rejected or lost status
raises BookingRejectedError, and otherwise the Booking constructor is
called with the built keyword arguments and validates them. -/
def _create_booking_from_response (payload : DMNResponsePayload)
    (user : BookingUser) : Except PyErr Booking :=
  if payload.bookingStatus == "rejected" || payload.bookingStatus == "lost" then
    .error (.bookingRejected payload.bookingStatus)
  else
    validateBooking (_create_booking_args payload user)

/-- The constant BOOKING_TYPES_CACHE_TTL of DesignMyNightBookingAPI, in
seconds. -/
def BOOKING_TYPES_CACHE_TTL : Int := 3600

/-- The mutable cache state of DesignMyNightBookingAPI: the booking-types
cache and the last-update map (a defaultdict whose absent entries read as
zero). Timestamps are integral seconds. The Python cache maps venues to
sets of BookingType; the set is kept as the list of its elements. -/
structure CacheState where
  booking_types_cache : List (String × List BookingType)
  last_cache_update : List (String × Int)
deriving DecidableEq

/-- The method __get_booking_types as a function of the starting cache
state, the current time, and the outcome the catalog fetch would have.
Returns the resulting value or exception, the cache state after the call,
and the number of catalog lookups issued. A cached entry younger than the
TTL is returned without fetching; otherwise the catalog is fetched, and on
success the entry and its timestamp are overwritten. On a fetch failure
the exception propagates and the cache is left untouched. -/
def __get_booking_types (st : CacheState) (venue_id : String) (now : Int)
    (fetch : Except PyErr (List BookingType)) :
    Except PyErr (List BookingType) × CacheState × Nat :=
  match lookupAssoc st.booking_types_cache venue_id with
  | some cached =>
    if now - (lookupAssoc st.last_cache_update venue_id).getD 0 < BOOKING_TYPES_CACHE_TTL then
      (.ok cached, st, 0)
    else
      match fetch with
      | .ok bts =>
        (.ok bts,
          { booking_types_cache := dictSet st.booking_types_cache venue_id bts
            last_cache_update := dictSet st.last_cache_update venue_id now }, 1)
      | .error e => (.error e, st, 1)
  | none =>
    match fetch with
    | .ok bts =>
      (.ok bts,
        { booking_types_cache := dictSet st.booking_types_cache venue_id bts
          last_cache_update := dictSet st.last_cache_update venue_id now }, 1)
    | .error e => (.error e, st, 1)

/-- Decides whether an Except value carries a result rather than a raised
exception. -/
def exceptOk {ε α : Type} : Except ε α → Bool
  | .ok _ => true
  | .error _ => false

/-- Sample user for concrete evaluations: contact fields left at None. -/
def sampleUser : BookingUser :=
  { id := "u1", isOwner := true, email := none, phone := none,
    firstName := none, lastName := none }

/-- Sample date for concrete evaluations. -/
def sampleDate : PyDateTime := ⟨"2025-01-01", "00:00"⟩

/-- Sample booking type for concrete evaluations. -/
def sampleBookingType : BookingType := ⟨"t1", "Dinner"⟩

/-- Sample opaque metadata bag holding only the booking type field. -/
def dinnerBag : Dict := [("type", PyVal.vStr "dinner")]

/-- Sample availability slot whose metadata bag is the non-empty dinnerBag. -/
def dinnerBagSlot : AvailabilitySlot :=
  { provider := .DESIGN_MY_NIGHT, timeSlot := "18:00", date := sampleDate,
    url := "https://x", maxDuration := some 90, minDuration := some 45,
    tag := some "Dinner", metaData := some { designMyNight := some dinnerBag },
    bookingFormAction := .BOOKING_INJECTION, requiredDeposit := none, dobRequired := false }

/-- Sample availability slot whose metadata bag is present but empty. -/
def emptyBagSlot : AvailabilitySlot :=
  { provider := .DESIGN_MY_NIGHT, timeSlot := "18:00", date := sampleDate,
    url := "https://x", maxDuration := some 90, minDuration := some 45,
    tag := some "Dinner", metaData := some { designMyNight := some [] },
    bookingFormAction := .BOOKING_INJECTION, requiredDeposit := none, dobRequired := false }

/-- Sample outcome of a __get_time_slots task with one surviving slot. -/
def healthyTimeSlots : List TimeSlot := [⟨"18:00", "book"⟩]

/-- Sample outcome of a __get_time_slots task with two surviving slots in
reverse time order. -/
def healthyTimeSlots2 : List TimeSlot := [⟨"19:00", "book"⟩, ⟨"18:00", "book"⟩]

/-- Sample outcome of a __get_booking_details task, with no deposit. -/
def healthyDetails : BookingDetails := ⟨"https://x", false, []⟩

/-- Sample creation response payload with a confirmed status. -/
def confirmedPayload : DMNResponsePayload :=
  ⟨"confirmed", ⟨"b1", "2025-01-02T00:00:00", "19:00", 2, "2025-01-01", ⟨"Dinner"⟩, "a@b.c"⟩,
    ⟨"v1", "Venue One"⟩⟩

/-- Sample creation response payload with a rejected status. -/
def rejectedPayload : DMNResponsePayload :=
  ⟨"rejected", ⟨"b1", "2025-01-02T00:00:00", "19:00", 2, "2025-01-01", ⟨"Dinner"⟩, "a@b.c"⟩,
    ⟨"v1", "Venue One"⟩⟩

/-- Sample creation response payload with a status that is neither
confirmed nor a rejection state. -/
def pendingPayload : DMNResponsePayload :=
  ⟨"pending", ⟨"b1", "2025-01-02T00:00:00", "19:00", 2, "2025-01-01", ⟨"Dinner"⟩, "a@b.c"⟩,
    ⟨"v1", "Venue One"⟩⟩

instance : IsTotal AvailabilitySlot slotTimeLe :=
  ⟨fun a b => by
    have general : ∀ x y : List Char, charListLe x y = true ∨ charListLe y x = true := by
      intro x
      induction x with
      | nil => intro y; left; rfl
      | cons c cs ih =>
        intro y
        cases y with
        | nil => right; rfl
        | cons d ds =>
          by_cases hcd : c = d
          · subst hcd
            simp only [charListLe, if_pos rfl]
            exact ih ds
          · have hdc : d ≠ c := fun h => hcd h.symm
            rcases lt_or_gt_of_ne hcd with h | h
            · left; simp [charListLe, hcd, h]
            · right; simp [charListLe, hdc, h]
    exact general a.timeSlot.data b.timeSlot.data⟩

instance : IsTrans AvailabilitySlot slotTimeLe :=
  ⟨fun a b c hab hbc => by
    have general : ∀ x y z : List Char,
        charListLe x y = true → charListLe y z = true → charListLe x z = true := by
      intro x
      induction x with
      | nil => intro y z _ _; rfl
      | cons c1 cs ih =>
        intro y z hxy hyz
        cases y with
        | nil => simp [charListLe] at hxy
        | cons c2 ds =>
          cases z with
          | nil => simp [charListLe] at hyz
          | cons c3 es =>
            by_cases h12 : c1 = c2 <;> by_cases h23 : c2 = c3
            · subst h12; subst h23
              simp only [charListLe, if_pos rfl] at hxy hyz ⊢
              exact ih ds es hxy hyz
            · subst h12
              simp only [charListLe, if_pos rfl] at hxy
              simp only [charListLe, if_neg h23] at hyz ⊢
              exact hyz
            · subst h23
              simp only [charListLe, if_neg h12] at hxy ⊢
              exact hxy
            · simp only [charListLe, if_neg h12] at hxy
              simp only [charListLe, if_neg h23] at hyz
              have hlt : c1 < c3 :=
                lt_trans (of_decide_eq_true hxy) (of_decide_eq_true hyz)
              have hne : c1 ≠ c3 := ne_of_lt hlt
              simp [charListLe, hne, hlt]
    exact general a.timeSlot.data b.timeSlot.data c.timeSlot.data hab hbc⟩

theorem containsKey_dictSet (d : Dict) (k0 k : String) (v : PyVal) :
    containsKey (dictSet d k0 v) k = ((k0 == k) || containsKey d k) := by
  induction d with
  | nil => simp [dictSet, containsKey]
  | cons hd tl ih =>
    obtain ⟨k1, v1⟩ := hd
    by_cases h : k1 = k0
    · subst h
      simp only [dictSet, if_pos rfl, containsKey, List.any_cons]
      cases hk : (k1 == k) <;> simp [containsKey, hk]
    · simp only [dictSet, if_neg h, containsKey, List.any_cons]
      have := ih
      simp only [containsKey] at this
      rw [this]
      cases (k1 == k) <;> cases (k0 == k) <;> simp

theorem containsKey_dictUpdate (d u : Dict) (k : String) :
    containsKey (dictUpdate d u) k = (containsKey d k || containsKey u k) := by
  induction u generalizing d with
  | nil => simp [dictUpdate, containsKey]
  | cons hd tl ih =>
    obtain ⟨k1, v1⟩ := hd
    show containsKey (dictUpdate (dictSet d k1 v1) tl) k = _
    rw [ih, containsKey_dictSet]
    simp only [containsKey, List.any_cons]
    cases (k1 == k) <;> cases (containsKey d k) <;> simp [containsKey]

theorem find?_completions {α : Type} (f : Nat → α) (order : List Nat) (i : Nat)
    (h : i ∈ order) :
    (order.map (fun j => (j, f j))).find? (fun c => c.1 == i) = some (i, f i) := by
  induction order with
  | nil => cases h
  | cons j rest ih =>
    by_cases hji : j = i
    · subst hji
      simp [List.find?]
    · have : i ∈ rest := by
        cases h with
        | head => exact absurd rfl hji
        | tail _ h2 => exact h2
      simp only [List.map_cons, List.find?]
      have hne : (j == i) = false := beq_false_of_ne hji
      simp [hne, ih this]

theorem gatherResults_complete {α : Type} [Inhabited α] (tasks : List α) (order : List Nat)
    (h : ∀ i, i < tasks.length → i ∈ order) : gatherResults tasks order = tasks := by
  apply List.ext_getElem
  · simp [gatherResults]
  · intro i h1 h2
    have hlen : i < tasks.length := by simpa [gatherResults] using h1
    simp only [gatherResults, List.getElem_map, List.getElem_range]
    rw [find?_completions (fun j => tasks.getD j default) order i (h i hlen)]
    simp [List.getD_eq_getElem?_getD, List.getElem?_eq_getElem hlen]

theorem pairUp_flatten_pairs {α β : Type} (f g : β → α) (l : List β) :
    pairUp ((l.map (fun a => [f a, g a])).flatten) = l.map (fun a => (f a, g a)) := by
  induction l with
  | nil => rfl
  | cons hd tl ih => simp [pairUp, ih]

theorem zip_self_map {α β : Type} (l : List α) (g : α → β) :
    l.zip (l.map g) = l.map (fun a => (a, g a)) := by
  induction l with
  | nil => rfl
  | cons hd tl ih => simp [List.zip_cons_cons, ih]

theorem slotsForType_of_failed (date : PyDateTime) (covers : Int)
    (entry : BookingType × TaskResult × TaskResult)
    (h : (!(isExceptionResult entry.2.1) && isBookingDetailsResult entry.2.2) = false) :
    slotsForType date covers entry = .ok [] := by
  obtain ⟨bt, ts, bd⟩ := entry
  cases ts <;> cases bd <;> simp_all [slotsForType, isExceptionResult, isBookingDetailsResult]

theorem collectSlots_filter (date : PyDateTime) (covers : Int)
    (entries : List (BookingType × TaskResult × TaskResult)) :
    collectSlots date covers entries =
      collectSlots date covers
        (entries.filter
          (fun e => !(isExceptionResult e.2.1) && isBookingDetailsResult e.2.2)) := by
  induction entries with
  | nil => rfl
  | cons e rest ih =>
    cases hp : (!(isExceptionResult e.2.1) && isBookingDetailsResult e.2.2) with
    | true =>
      have hfil : List.filter
          (fun e => !(isExceptionResult e.2.1) && isBookingDetailsResult e.2.2) (e :: rest) =
          e :: List.filter
            (fun e => !(isExceptionResult e.2.1) && isBookingDetailsResult e.2.2) rest := by
        simp [List.filter_cons, hp]
      rw [hfil]
      simp only [collectSlots]
      rw [ih]
    | false =>
      have hok := slotsForType_of_failed date covers e hp
      have hfil : List.filter
          (fun e => !(isExceptionResult e.2.1) && isBookingDetailsResult e.2.2) (e :: rest) =
          List.filter (fun e => !(isExceptionResult e.2.1) && isBookingDetailsResult e.2.2)
            rest := by
        simp [List.filter_cons, hp]
      rw [hfil, ← ih]
      cases hrest : collectSlots date covers rest with
      | error err => simp [collectSlots, hok, hrest]
      | ok ls => simp [collectSlots, hok, hrest]

theorem pySortedByTimeSlot_sorted (l : List AvailabilitySlot) :
    List.Sorted slotTimeLe (pySortedByTimeSlot l) :=
  List.sorted_insertionSort slotTimeLe l

theorem get_booking_types_count_le_one (st : CacheState) (venue_id : String) (now : Int)
    (fetch : Except PyErr (List BookingType)) :
    (__get_booking_types st venue_id now fetch).2.2 ≤ 1 := by
  unfold __get_booking_types
  cases lookupAssoc st.booking_types_cache venue_id with
  | none => cases fetch <;> simp
  | some cached =>
    by_cases h : now - (lookupAssoc st.last_cache_update venue_id).getD 0 <
        BOOKING_TYPES_CACHE_TTL
    · simp [h]
    · cases fetch <;> simp [h]

theorem lookupAssoc_dictSet_self {β : Type} (l : List (String × β)) (k : String) (v : β) :
    lookupAssoc (dictSet l k v) k = some v := by
  induction l with
  | nil => simp [dictSet, lookupAssoc, List.find?]
  | cons hd tl ih =>
    obtain ⟨k1, v1⟩ := hd
    by_cases h : k1 = k
    · subst h
      simp [dictSet, lookupAssoc, List.find?]
    · have hne : (k1 == k) = false := beq_false_of_ne h
      simp only [dictSet, if_neg h, lookupAssoc, List.find?, hne]
      exact ih

/-- C4: the bookingFormAction keyword argument the provider computes
follows the claimed rule — WEBSITE exactly when the deposit flag is set or
the raw action is enquire or may_enquire, BOOKING_INJECTION otherwise, and
WEBSITE whenever the deposit is required regardless of action — but no
availability slot is ever constructed by the aggregator: the requiredDeposit
keyword receives a raw bool where the model declares RequiredDeposit or
None, so every _create_availability_slot call raises a pydantic
ValidationError instead of producing a slot. -/
theorem c4_form_action_rule_but_constructor_raises :
    (∀ (slot : TimeSlot) (booking_details : BookingDetails) (date : PyDateTime)
        (covers : Int) (booking_type : BookingType),
      (_create_availability_slot_args slot booking_details date covers
          booking_type).bookingFormAction =
        (if booking_details.deposit_required
            || (slot.action == "enquire" || slot.action == "may_enquire") then
          .WEBSITE
        else
          .BOOKING_INJECTION))
    ∧ (_create_availability_slot_args ⟨"18:00", "book"⟩ ⟨"https://x", true, []⟩ sampleDate 2
        sampleBookingType).bookingFormAction = .WEBSITE
    ∧ ∀ (slot : TimeSlot) (booking_details : BookingDetails) (date : PyDateTime)
        (covers : Int) (booking_type : BookingType),
      _create_availability_slot slot booking_details date covers booking_type =
        .error (.validationError "requiredDeposit") :=
  ⟨fun _ _ _ _ _ => rfl, rfl, fun _ _ _ _ _ => rfl⟩

/-- C6: a raw time suggestion lacking a truthy time value, lacking a truthy
valid flag, or whose action is reject contributes no slot to the output of
__get_time_slots, and no produced slot carries the action reject. -/
theorem c6_suggestion_filter :
    (∀ (pre post : List RawTimeSuggestion) (r : RawTimeSuggestion),
      (truthyStr r.time = false ∨ truthyFlag r.valid = false ∨ r.action = "reject") →
      __get_time_slots (pre ++ r :: post) = __get_time_slots (pre ++ post))
    ∧ ∀ (suggested : List RawTimeSuggestion) (s : TimeSlot),
      s ∈ __get_time_slots suggested → s.action ≠ "reject" := by
  constructor
  · intro pre post r hr
    have hkept : suggestionKept r = false := by
      rcases hr with h | h | h
      · simp [suggestionKept, h]
      · simp [suggestionKept, h]
      · simp [suggestionKept, h]
    simp [__get_time_slots, List.filter_append, List.filter_cons, hkept]
  · intro suggested s hs
    simp only [__get_time_slots, List.mem_map, List.mem_filter] at hs
    obtain ⟨r, ⟨_, hkept⟩, rfl⟩ := hs
    intro hcontra
    have hbeq : (r.action == "reject") = true := beq_iff_eq.mpr hcontra
    simp [suggestionKept, hbeq] at hkept

/-- C6 witness: a valid suggestion with action reject contributes nothing,
and a produced slot has an action other than reject. -/
theorem c6_suggestion_filter_witness :
    __get_time_slots ([] ++ ⟨some true, some "19:00", "reject"⟩ :: []) = __get_time_slots ([] ++ [])
    ∧ (⟨"18:00", "book"⟩ : TimeSlot).action ≠ "reject" :=
  ⟨c6_suggestion_filter.1 [] [] ⟨some true, some "19:00", "reject"⟩ (Or.inr (Or.inr rfl)),
   c6_suggestion_filter.2 [⟨some true, some "18:00", "book"⟩] ⟨"18:00", "book"⟩ (by decide)⟩

/-- C3: the rejection branch raises BookingRejectedError carrying the
status as claimed, and the intended mapping (confirmed to COMPLETED, any
other status to REQUESTED, date and time combined into one instant) is
visible in the constructor arguments the code builds — but no Booking is
ever returned: the Booking model requires the partner field,
_create_booking_from_response never supplies it, so every non-rejected
response makes the constructor raise a pydantic ValidationError. -/
theorem c3_booking_never_returned :
    (∀ (payload : DMNResponsePayload) (user : BookingUser),
      exceptOk (_create_booking_from_response payload user) = false)
    ∧ _create_booking_from_response rejectedPayload sampleUser =
        .error (.bookingRejected "rejected")
    ∧ _create_booking_from_response confirmedPayload sampleUser =
        .error (.validationError "partner")
    ∧ (_create_booking_args confirmedPayload sampleUser).status = .COMPLETED
    ∧ (_create_booking_args pendingPayload sampleUser).status = .REQUESTED
    ∧ (_create_booking_args confirmedPayload sampleUser).dateTime =
        pyDatetimeCombine (pyDateFromIso "2025-01-02T00:00:00") (pyStrptimeTimeHM "19:00")
    ∧ (_create_booking_args confirmedPayload sampleUser).partner = none := by
  refine ⟨fun payload user => ?_, rfl, rfl, by decide, by decide, by decide, by decide⟩
  unfold _create_booking_from_response
  cases h : (payload.bookingStatus == "rejected" || payload.bookingStatus == "lost") with
  | true => simp [h, exceptOk]
  | false => simp [h, exceptOk, validateBooking, _create_booking_args]

/-- C5: no sorted slot sequence is returned on a healthy input: the first
surviving suggestion makes the slot constructor raise a pydantic
ValidationError out of get_availability_per_date (the requiredDeposit bool
fails model validation), and the outcome is the same for either completion
order of the two gathered tasks; the sort the code would apply, had the
construction succeeded, does order by timeSlot lexicographically. -/
theorem c5_no_sorted_sequence_returned :
    get_availability_per_date (.ok [sampleBookingType]) (fun _ => .ok healthyTimeSlots2)
        (fun _ => .ok healthyDetails) [0, 1] sampleDate 2
      = .error (.validationError "requiredDeposit")
    ∧ get_availability_per_date (.ok [sampleBookingType]) (fun _ => .ok healthyTimeSlots2)
        (fun _ => .ok healthyDetails) [1, 0] sampleDate 2
      = .error (.validationError "requiredDeposit")
    ∧ ∀ l : List AvailabilitySlot, List.Sorted slotTimeLe (pySortedByTimeSlot l) :=
  ⟨rfl, rfl, pySortedByTimeSlot_sorted⟩

/-- C7: zero booking types still give the empty sequence, and entries whose
time-slot task raised or whose details result is not a BookingDetails are
skipped exactly without affecting the other entries; but the aggregation
does not always return a slot list once type resolution succeeds: a single
healthy booking type with one surviving suggestion makes the slot
constructor raise a pydantic ValidationError out of the whole call. -/
theorem c7_aggregation_crashes_on_healthy_type
    (tsOutcome : BookingType → Except PyErr (List TimeSlot))
    (bdOutcome : BookingType → Except PyErr BookingDetails)
    (order : List Nat) (date : PyDateTime) (covers : Int) :
    (get_availability_per_date (.ok []) tsOutcome bdOutcome order date covers = .ok [])
    ∧ (∀ entries, aggregateSlots entries date covers =
        aggregateSlots
          (entries.filter
            (fun e => !(isExceptionResult e.2.1) && isBookingDetailsResult e.2.2))
          date covers)
    ∧ get_availability_per_date (.ok [sampleBookingType]) (fun _ => .ok healthyTimeSlots)
        (fun _ => .ok healthyDetails) [0, 1] sampleDate 2
      = .error (.validationError "requiredDeposit") := by
  refine ⟨rfl, fun entries => ?_, rfl⟩
  unfold aggregateSlots
  rw [collectSlots_filter date covers entries]

theorem mergedParams_containsKey_overlay (venue_id : String) (user : BookingUser)
    (availability_slot : AvailabilitySlot) (covers : Int) (md : BookingTimeSlotMetaData)
    (f : String)
    (hf : containsKey (overlayParams venue_id user availability_slot covers) f = true) :
    containsKey (mergedParams venue_id user availability_slot covers md) f = true := by
  unfold mergedParams
  rw [containsKey_dictUpdate, hf, Bool.or_true]

theorem missingFields_merged_subset (venue_id : String) (user : BookingUser)
    (availability_slot : AvailabilitySlot) (covers : Int) (md : BookingTimeSlotMetaData) :
    missingFields (mergedParams venue_id user availability_slot covers md) ⊆ {"type"} := by
  intro f hfm
  simp only [missingFields, Finset.mem_filter] at hfm
  obtain ⟨hreq, hnc⟩ := hfm
  simp only [REQUIRED_BOOKING_FIELDS, Finset.mem_insert, Finset.mem_singleton] at hreq
  simp only [Finset.mem_singleton]
  rcases hreq with rfl | rfl | rfl | rfl | rfl | rfl | rfl | rfl | rfl
  · exact absurd (mergedParams_containsKey_overlay venue_id user availability_slot covers md
      "venue_id" rfl) (by simp [hnc])
  · exact absurd (mergedParams_containsKey_overlay venue_id user availability_slot covers md
      "source" rfl) (by simp [hnc])
  · rfl
  · exact absurd (mergedParams_containsKey_overlay venue_id user availability_slot covers md
      "first_name" rfl) (by simp [hnc])
  · exact absurd (mergedParams_containsKey_overlay venue_id user availability_slot covers md
      "last_name" rfl) (by simp [hnc])
  · exact absurd (mergedParams_containsKey_overlay venue_id user availability_slot covers md
      "email" rfl) (by simp [hnc])
  · exact absurd (mergedParams_containsKey_overlay venue_id user availability_slot covers md
      "num_people" rfl) (by simp [hnc])
  · exact absurd (mergedParams_containsKey_overlay venue_id user availability_slot covers md
      "date" rfl) (by simp [hnc])
  · exact absurd (mergedParams_containsKey_overlay venue_id user availability_slot covers md
      "time" rfl) (by simp [hnc])

theorem missingFields_merged_of_no_type (venue_id : String) (user : BookingUser)
    (availability_slot : AvailabilitySlot) (covers : Int) (md : BookingTimeSlotMetaData)
    (hty : containsKey (mergedParams venue_id user availability_slot covers md) "type" = false) :
    missingFields (mergedParams venue_id user availability_slot covers md) = {"type"} := by
  apply Finset.Subset.antisymm
  · exact missingFields_merged_subset venue_id user availability_slot covers md
  · intro f hf
    simp only [Finset.mem_singleton] at hf
    subst hf
    simp only [missingFields, Finset.mem_filter]
    exact ⟨by simp [REQUIRED_BOOKING_FIELDS], hty⟩

theorem create_booking_fst (venue_id : String) (user : BookingUser)
    (availability_slot : AvailabilitySlot) (covers : Int) (md : BookingTimeSlotMetaData)
    (h : availability_slot.metaData = some md) :
    (create_booking venue_id user availability_slot covers).1 =
      if missingFields (mergedParams venue_id user availability_slot covers md) = ∅ then
        CreateStep.request (mergedParams venue_id user availability_slot covers md)
      else
        CreateStep.validationError
          (missingFields (mergedParams venue_id user availability_slot covers md)) := by
  simp [create_booking, h]

/-- C1 counterexample: a run in which all MAX_RETRIES attempts time out
raises the timeout exception itself, which is not a RequestFailed error,
and booking-type resolution failing with that timeout makes the
availability call fail with the same timeout error. -/
theorem c1_counterexample :
    (([.timeout] : List (AttemptResult Dict)).length = MAX_RETRIES
      ∧ _make_request_with_retry ([.timeout] : List (AttemptResult Dict)) = .error .timeoutErr
      ∧ isRequestFailed .timeoutErr = false)
    ∧ get_availability_per_date (.error .timeoutErr) (fun _ => .ok [])
        (fun _ => .ok ⟨"", false, []⟩) [] sampleDate 2 = .error .timeoutErr :=
  ⟨⟨rfl, rfl, rfl⟩, rfl⟩

/-- C1 amended: when every attempt fails, no data is returned; a final
attempt failing with a ClientError (transport failure or non-2xx status)
raises RequestFailed wrapping the upstream message, while a final attempt
timing out re-raises the timeout itself; and a failure of the catalog
lookup propagates out of the availability call unchanged, with no partial
slot list. -/
theorem c1_exhausted_attempts (pre : List (AttemptResult Dict)) (m : String)
    (tsOutcome : BookingType → Except PyErr (List TimeSlot))
    (bdOutcome : BookingType → Except PyErr BookingDetails)
    (order : List Nat) (date : PyDateTime) (covers : Int) :
    ((∀ a ∈ pre, attemptOk a = false) →
      _make_request_with_retry (pre ++ [.timeout]) = .error .timeoutErr)
    ∧ ((∀ a ∈ pre, attemptOk a = false) →
      _make_request_with_retry (pre ++ [.clientError m]) =
        .error (.requestFailedErr ("API request failed: " ++ m)))
    ∧ (∀ outs : List (AttemptResult Dict), (∀ a ∈ outs, attemptOk a = false) →
      exceptOk (_make_request_with_retry outs) = false)
    ∧ ∀ e, get_availability_per_date (.error e) tsOutcome bdOutcome order date covers
        = .error e := by
  refine ⟨?_, ?_, ?_, fun e => rfl⟩
  · intro hp
    induction pre with
    | nil => rfl
    | cons a rest ih =>
      have ha : attemptOk a = false := hp a (List.mem_cons_self a rest)
      have hrest : ∀ x ∈ rest, attemptOk x = false :=
        fun x hx => hp x (List.mem_cons_of_mem a hx)
      have hne : ((rest ++ [AttemptResult.timeout]).isEmpty) = false := by
        cases rest <;> rfl
      cases a with
      | ok d => simp [attemptOk] at ha
      | timeout =>
        show _make_request_with_retry (.timeout :: (rest ++ [.timeout])) = _
        simp only [_make_request_with_retry, hne, Bool.false_eq_true, if_false]
        exact ih hrest
      | clientError m2 =>
        show _make_request_with_retry (.clientError m2 :: (rest ++ [.timeout])) = _
        simp only [_make_request_with_retry, hne, Bool.false_eq_true, if_false]
        exact ih hrest
  · intro hp
    induction pre with
    | nil => rfl
    | cons a rest ih =>
      have ha : attemptOk a = false := hp a (List.mem_cons_self a rest)
      have hrest : ∀ x ∈ rest, attemptOk x = false :=
        fun x hx => hp x (List.mem_cons_of_mem a hx)
      have hne : ((rest ++ [AttemptResult.clientError m]).isEmpty) = false := by
        cases rest <;> rfl
      cases a with
      | ok d => simp [attemptOk] at ha
      | timeout =>
        show _make_request_with_retry (.timeout :: (rest ++ [.clientError m])) = _
        simp only [_make_request_with_retry, hne, Bool.false_eq_true, if_false]
        exact ih hrest
      | clientError m2 =>
        show _make_request_with_retry (.clientError m2 :: (rest ++ [.clientError m])) = _
        simp only [_make_request_with_retry, hne, Bool.false_eq_true, if_false]
        exact ih hrest
  · intro outs
    induction outs with
    | nil => intro _; rfl
    | cons a rest ih =>
      intro houts
      have ha : attemptOk a = false := houts a (List.mem_cons_self a rest)
      have hrest : ∀ x ∈ rest, attemptOk x = false :=
        fun x hx => houts x (List.mem_cons_of_mem a hx)
      cases a with
      | ok d => simp [attemptOk] at ha
      | timeout =>
        cases hre : rest.isEmpty with
        | true =>
          show exceptOk (_make_request_with_retry (.timeout :: rest)) = false
          simp [_make_request_with_retry, hre, exceptOk]
        | false =>
          show exceptOk (_make_request_with_retry (.timeout :: rest)) = false
          simp only [_make_request_with_retry, hre, Bool.false_eq_true, if_false]
          exact ih hrest
      | clientError m2 =>
        cases hre : rest.isEmpty with
        | true =>
          show exceptOk (_make_request_with_retry (.clientError m2 :: rest)) = false
          simp [_make_request_with_retry, hre, exceptOk]
        | false =>
          show exceptOk (_make_request_with_retry (.clientError m2 :: rest)) = false
          simp only [_make_request_with_retry, hre, Bool.false_eq_true, if_false]
          exact ih hrest

/-- C1 witness: a single failing attempt of each kind, at the configured
MAX_RETRIES of one. -/
theorem c1_exhausted_attempts_witness :
    _make_request_with_retry (([] : List (AttemptResult Dict)) ++ [.clientError "boom"]) =
      .error (.requestFailedErr ("API request failed: " ++ "boom"))
    ∧ _make_request_with_retry (([] : List (AttemptResult Dict)) ++ [.timeout]) =
      .error .timeoutErr :=
  ⟨(c1_exhausted_attempts [] "boom" (fun _ => .ok []) (fun _ => .ok ⟨"", false, []⟩)
      [] sampleDate 2).2.1 (by decide),
   (c1_exhausted_attempts [] "boom" (fun _ => .ok []) (fun _ => .ok ⟨"", false, []⟩)
      [] sampleDate 2).1 (by decide)⟩

/-- C2 counterexample: a booking payload whose metadata bag lacks email
does not raise any BookingValidation error, because the overlay always
supplies the email key; the call proceeds to the network request. -/
theorem c2_counterexample :
    containsKey dinnerBag "email" = false
    ∧ (create_booking "v1" sampleUser dinnerBagSlot 2).1 =
        .request (mergedParams "v1" sampleUser dinnerBagSlot 2
          { designMyNight := some dinnerBag }) := by
  exact ⟨by decide, by decide⟩

/-- C2 amended: create_booking validates the merged parameter set against
REQUIRED_BOOKING_FIELDS before the network call, raising BookingValidation
naming exactly the missing fields when any is missing and issuing the POST
otherwise; the overlay always supplies the email key, so a payload missing
email raises nothing on that account, and the only field that can be named
is type: a merged set lacking type raises BookingValidation naming exactly
the singleton type. -/
theorem c2_validation_fields (venue_id : String) (user : BookingUser)
    (availability_slot : AvailabilitySlot) (covers : Int) (md : BookingTimeSlotMetaData)
    (h : availability_slot.metaData = some md) :
    (missingFields (mergedParams venue_id user availability_slot covers md) ≠ ∅ →
      (create_booking venue_id user availability_slot covers).1 =
        .validationError (missingFields (mergedParams venue_id user availability_slot covers md)))
    ∧ (missingFields (mergedParams venue_id user availability_slot covers md) = ∅ →
      (create_booking venue_id user availability_slot covers).1 =
        .request (mergedParams venue_id user availability_slot covers md))
    ∧ containsKey (mergedParams venue_id user availability_slot covers md) "email" = true
    ∧ (containsKey (mergedParams venue_id user availability_slot covers md) "type" = false →
      (create_booking venue_id user availability_slot covers).1 =
        .validationError {"type"}) := by
  refine ⟨?_, ?_, ?_, ?_⟩
  · intro hne
    rw [create_booking_fst venue_id user availability_slot covers md h, if_neg hne]
  · intro heq
    rw [create_booking_fst venue_id user availability_slot covers md h, if_pos heq]
  · exact mergedParams_containsKey_overlay venue_id user availability_slot covers md "email" rfl
  · intro hty
    have hset := missingFields_merged_of_no_type venue_id user availability_slot covers md hty
    have hne : missingFields (mergedParams venue_id user availability_slot covers md) ≠ ∅ := by
      rw [hset]
      decide
    rw [create_booking_fst venue_id user availability_slot covers md h, if_neg hne, hset]

/-- C2 witness: a present but empty metadata bag lacks type, and the
validation error names exactly the type field. -/
theorem c2_validation_fields_witness :
    (create_booking "v1" sampleUser emptyBagSlot 2).1 = .validationError {"type"} :=
  (c2_validation_fields "v1" sampleUser emptyBagSlot 2 { designMyNight := some [] } rfl).2.2.2
    (by decide)

/-- C8: a cached booking-type entry younger than the TTL is returned with
no catalog lookup and no state change; two consecutive calls for the same
venue within the TTL window, the first of which fetches successfully when
it has to, issue at most one catalog lookup in total; and a call finding
its entry expired issues exactly one lookup and overwrites both the entry
and its timestamp. -/
theorem c8_cache_ttl (st : CacheState) (venue_id : String) (now t1 t2 : Int)
    (fetch fetch1 fetch2 : Except PyErr (List BookingType)) (cached bts : List BookingType) :
    (lookupAssoc st.booking_types_cache venue_id = some cached →
      now - (lookupAssoc st.last_cache_update venue_id).getD 0 < BOOKING_TYPES_CACHE_TTL →
      __get_booking_types st venue_id now fetch = (.ok cached, st, 0))
    ∧ (t2 - t1 < BOOKING_TYPES_CACHE_TTL → fetch1 = .ok bts →
      (__get_booking_types st venue_id t1 fetch1).2.2
        + (__get_booking_types (__get_booking_types st venue_id t1 fetch1).2.1
            venue_id t2 fetch2).2.2 ≤ 1)
    ∧ (lookupAssoc st.booking_types_cache venue_id = some cached →
      ¬(now - (lookupAssoc st.last_cache_update venue_id).getD 0 < BOOKING_TYPES_CACHE_TTL) →
      fetch = .ok bts →
      __get_booking_types st venue_id now fetch =
        (.ok bts,
          { booking_types_cache := dictSet st.booking_types_cache venue_id bts
            last_cache_update := dictSet st.last_cache_update venue_id now }, 1)) := by
  refine ⟨?_, ?_, ?_⟩
  · intro hcache hfresh
    simp [__get_booking_types, hcache, hfresh]
  · intro httl hf1
    have hsecond : ∀ st2 : CacheState,
        lookupAssoc st2.booking_types_cache venue_id = some bts →
        lookupAssoc st2.last_cache_update venue_id = some t1 →
        (__get_booking_types st2 venue_id t2 fetch2).2.2 = 0 := by
      intro st2 hl1 hl2
      simp [__get_booking_types, hl1, hl2, httl]
    cases hc : lookupAssoc st.booking_types_cache venue_id with
    | none =>
      have h1 : __get_booking_types st venue_id t1 fetch1 =
          (.ok bts,
            { booking_types_cache := dictSet st.booking_types_cache venue_id bts
              last_cache_update := dictSet st.last_cache_update venue_id t1 }, 1) := by
        simp [__get_booking_types, hc, hf1]
      rw [h1]
      rw [hsecond _ (lookupAssoc_dictSet_self _ _ _) (lookupAssoc_dictSet_self _ _ _)]
    | some c0 =>
      by_cases hfresh : t1 - (lookupAssoc st.last_cache_update venue_id).getD 0 <
          BOOKING_TYPES_CACHE_TTL
      · have h1 : __get_booking_types st venue_id t1 fetch1 = (.ok c0, st, 0) := by
          simp [__get_booking_types, hc, hfresh]
        rw [h1]
        simpa using get_booking_types_count_le_one st venue_id t2 fetch2
      · have h1 : __get_booking_types st venue_id t1 fetch1 =
            (.ok bts,
              { booking_types_cache := dictSet st.booking_types_cache venue_id bts
                last_cache_update := dictSet st.last_cache_update venue_id t1 }, 1) := by
          simp [__get_booking_types, hc, hfresh, hf1]
        rw [h1]
        rw [hsecond _ (lookupAssoc_dictSet_self _ _ _) (lookupAssoc_dictSet_self _ _ _)]
  · intro hcache hstale hf
    simp [__get_booking_types, hcache, hstale, hf]

/-- C8 witness: a fresh cached entry answers with no lookup; a cold call
followed by a call ten seconds later issues one lookup in total; an entry
expired for over an hour is refetched once and overwritten. -/
theorem c8_cache_ttl_witness :
    __get_booking_types ⟨[("v1", [sampleBookingType])], [("v1", 0)]⟩ "v1" 10
        (.error .timeoutErr) =
      (.ok [sampleBookingType], ⟨[("v1", [sampleBookingType])], [("v1", 0)]⟩, 0)
    ∧ ((__get_booking_types ⟨[], []⟩ "v1" 0 (.ok [sampleBookingType])).2.2
        + (__get_booking_types (__get_booking_types ⟨[], []⟩ "v1" 0
            (.ok [sampleBookingType])).2.1 "v1" 10 (.error .timeoutErr)).2.2 ≤ 1)
    ∧ __get_booking_types ⟨[("v1", [])], [("v1", 0)]⟩ "v1" 4000 (.ok [sampleBookingType]) =
        (.ok [sampleBookingType],
          ⟨dictSet [("v1", [])] "v1" [sampleBookingType], dictSet [("v1", 0)] "v1" 4000⟩, 1) :=
  ⟨(c8_cache_ttl ⟨[("v1", [sampleBookingType])], [("v1", 0)]⟩ "v1" 10 0 0
      (.error .timeoutErr) (.ok []) (.ok []) [sampleBookingType] []).1 rfl (by decide),
   (c8_cache_ttl ⟨[], []⟩ "v1" 0 0 10 (.error .timeoutErr) (.ok [sampleBookingType])
      (.error .timeoutErr) [] [sampleBookingType]).2.1 (by decide) rfl,
   (c8_cache_ttl ⟨[("v1", [])], [("v1", 0)]⟩ "v1" 4000 0 0 (.ok [sampleBookingType])
      (.ok []) (.ok []) [] [sampleBookingType]).2.2 rfl (by decide) rfl⟩

/-- C9: the parameter overlay of create_booking writes into the metadata
bag of the input slot whenever the bag is a non-empty dict, because the
params variable aliases it: after the call on a slot whose bag holds only
the type field, the bag is no longer its original value but the merged
parameter dict, now containing the venue_id key. -/
theorem c9_metadata_bag_mutated :
    (create_booking "v1" sampleUser dinnerBagSlot 2).2 ≠ some { designMyNight := some dinnerBag }
    ∧ (create_booking "v1" sampleUser dinnerBagSlot 2).2 =
        some ⟨some (mergedParams "v1" sampleUser dinnerBagSlot 2
          { designMyNight := some dinnerBag })⟩
    ∧ containsKey
        (mergedParams "v1" sampleUser dinnerBagSlot 2 { designMyNight := some dinnerBag })
        "venue_id" = true :=
  ⟨by decide, by decide, rfl⟩

/-- C10: for a slot whose metadata bag is present, the merged parameters
always contain the venue, date, time, covers, source and all user contact
keys, even when the contact values are None, so the missing-field set is at
most the singleton type and every BookingValidation error raised by
create_booking names exactly the type field. -/
theorem c10_only_type_can_be_missing (venue_id : String) (user : BookingUser)
    (availability_slot : AvailabilitySlot) (covers : Int) (md : BookingTimeSlotMetaData)
    (h : availability_slot.metaData = some md) :
    (∀ f ∈ (["venue_id", "date", "time", "num_people", "source",
        "first_name", "last_name", "email"] : List String),
      containsKey (mergedParams venue_id user availability_slot covers md) f = true)
    ∧ missingFields (mergedParams venue_id user availability_slot covers md) ⊆ {"type"}
    ∧ ∀ S, (create_booking venue_id user availability_slot covers).1 = .validationError S →
        S = {"type"} := by
  refine ⟨?_, missingFields_merged_subset venue_id user availability_slot covers md, ?_⟩
  · intro f hf
    fin_cases hf <;>
      exact mergedParams_containsKey_overlay venue_id user availability_slot covers md _ rfl
  · intro S hS
    rw [create_booking_fst venue_id user availability_slot covers md h] at hS
    by_cases hm : missingFields (mergedParams venue_id user availability_slot covers md) = ∅
    · rw [if_pos hm] at hS
      exact absurd hS (by simp)
    · rw [if_neg hm] at hS
      have hSm : S = missingFields (mergedParams venue_id user availability_slot covers md) :=
        (CreateStep.validationError.injEq _ _).mp hS.symm

      subst hSm
      rcases Finset.subset_singleton_iff.mp
        (missingFields_merged_subset venue_id user availability_slot covers md) with h0 | h1
      · exact absurd h0 hm
      · exact h1

/-- C10 witness: a present but empty bag leaves only the type field
missing, and the merged parameters contain the email key. -/
theorem c10_only_type_can_be_missing_witness :
    containsKey (mergedParams "v1" sampleUser emptyBagSlot 2 { designMyNight := some [] })
      "email" = true
    ∧ ({"type"} : Finset String) = {"type"} :=
  ⟨(c10_only_type_can_be_missing "v1" sampleUser emptyBagSlot 2 { designMyNight := some [] }
      rfl).1 "email" (by decide),
   (c10_only_type_can_be_missing "v1" sampleUser emptyBagSlot 2 { designMyNight := some [] }
      rfl).2.2 {"type"} (by decide)⟩

end BookablApi
